import Mathlib

/-!
Verification of the `sw-precache-webpack-plugin` adapter (src/index.js).

The plugin observes webpack's `after-emit` hook, derives a configuration
object from the compiler/compilation state and the user options, calls the
external `sw-precache` generator, optionally minifies the result, and writes
it through the compiler's output filesystem.  We embed the configuration
computation as pure Lean functions and the asynchronous hook body as a
deterministic event trace following JavaScript promise semantics.
-/

namespace SWPlugin

/-- Path separator of the host platform; the webpack hosts modelled here are
POSIX (`path.sep = "/"`). -/
def pathSep : String := "/"

/-- Model of node `path.join(a, b)` for the plain directory/asset-name segments
this plugin joins (no normalization cases arise for such inputs). -/
def pathJoin (a b : String) : String := a ++ "/" ++ b

/-- Model of node `path.resolve(dir, name)` for an absolute base directory and
a relative filename, as used at `configure` line 96. -/
def pathResolve (dir name : String) : String := dir ++ "/" ++ name

/-- Model of `path.resolve(filepath, "..")`: the parent directory of a path,
obtained by removing the last `/`-separated component. -/
def parentDir (p : String) : String :=
  String.mk (((p.data.reverse.dropWhile (fun c => !(c == '/'))).drop 1).reverse)

/-- Model of node `url.resolve(publicPath, f)` for a base public path and a
relative script reference, as used at `configure` line 133. -/
def urlResolve (base f : String) : String := base ++ f

/-- A JS regular expression is modelled by its `test` function. -/
abbrev Pattern := String → Bool

/-- One fuel-indexed pass of global literal replacement over a character
list: at each position, if `pat` is a prefix, emit `repl` and skip past the
match, else keep the character — the semantics of JS
`String.prototype.replace` with a global literal pattern. -/
def replFuel (pat repl : List Char) : Nat → List Char → List Char
  | _, [] => []
  | 0, l => l
  | Nat.succ n, c :: rest =>
      if pat.isPrefixOf (c :: rest) then
        repl ++ replFuel pat repl n ((c :: rest).drop pat.length)
      else
        c :: replFuel pat repl n rest

/-- Model of `f.replace(/\[hash\]/g, hash)` for a non-empty literal pattern:
every leftmost, non-overlapping occurrence of `pattern` in `s` is replaced
with `replacement`. -/
def replaceAll (s pattern replacement : String) : String :=
  String.mk (replFuel pattern.data replacement.data s.data.length s.data)

/-- JS object property lookup on the association-list model of a plain object
(key order is insertion order, keys unique by construction of `oset`). -/
def olookup (m : List (String × String)) (k : String) : Option String :=
  (m.find? (fun p => p.1 == k)).map (fun p => p.2)

/-- JS property assignment `obj[k] = v`: replaces the value in place when the
key already exists, appends a new entry otherwise. -/
def oset (m : List (String × String)) (k v : String) : List (String × String) :=
  if m.any (fun p => p.1 == k) then
    m.map (fun p => if p.1 == k then (k, v) else p)
  else m ++ [(k, v)]

/-- The user options after the constructor merge `\x7b...DEFAULT_OPTIONS,
...options\x7d`; field defaults are exactly `DEFAULT_OPTIONS` of the source.
`Option` fields model keys a user may leave absent (JS `undefined`); for
`filepath` the string `""` is supplied-but-falsy, matching JS truthiness. -/
structure Options where
  cacheId : String := "sw-precache-webpack-plugin"
  filename : String := "service-worker.js"
  filepath : Option String := none
  importScripts : Option (List String) := some []
  staticFileGlobs : Option (List String) := none
  staticFileGlobsIgnorePatterns : List Pattern := []
  stripPrefixMulti : Option (List (String × String)) := none
  mergeStaticsConfig : Bool := false
  minify : Bool := false
  debug : Bool := false
  forceDelete : Bool := false

/-- `DEFAULT_OPTIONS` of the source: the options of a user who passed nothing. -/
def DEFAULT_OPTIONS : Options := {}

/-- The generated configuration `this.config`: empty at construction, both
keys set by every `configure` run. -/
structure Config where
  staticFileGlobs : Option (List String) := none
  stripPrefixMulti : Option (List (String × String)) := none

/-- The generated configuration `this.overrides` that overrides user options:
empty at construction; `configure` stores `filepath`, `importScripts`, and —
when `mergeStaticsConfig` — also the computed statics. -/
structure Overrides where
  filepath : Option String := none
  importScripts : Option (List String) := none
  staticFileGlobs : Option (List String) := none
  stripPrefixMulti : Option (List (String × String)) := none

/-- The mutable plugin instance state set up by the constructor. -/
structure PluginState where
  config : Config
  options : Options
  overrides : Overrides
  warnings : List String

/-- The constructor: fresh `config`, merged `options`, fresh `overrides`,
empty `warnings`. -/
def init (options : Options) : PluginState :=
  { config := {}, options := options, overrides := {}, warnings := [] }

/-- Host compiler state consumed by the plugin: `compiler.outputPath` (the JS
falsy case `undefined`/`""` is modelled by `""`) and
`compiler.options.output.publicPath` (`none` when not set). -/
structure CompilerState where
  outputPath : String
  publicPath : Option String

/-- Host compilation state consumed by the plugin:
`Object.keys(compilation.assets)` in insertion order, and `compilation.hash`. -/
structure Compilation where
  assets : List String
  hash : String

/-- The effective configuration passed to the generator, restricted to the
keys this plugin reads or computes. -/
structure Effective where
  cacheId : String
  filename : String
  filepath : Option String
  importScripts : Option (List String)
  staticFileGlobs : Option (List String)
  stripPrefixMulti : Option (List (String × String))
  mergeStaticsConfig : Bool
  minify : Bool
  debug : Bool

/-- JS object spread for one key: `\x7b...older, ...newer\x7d` keeps the newer
layer's value whenever that layer has the key. -/
def jsSpread {α : Type} (older newer : Option α) : Option α :=
  match newer with
  | some v => some v
  | none => older

/-- `get workerOptions`: the spread `\x7b...this.config, ...this.options,
...this.overrides\x7d` — for each key the rightmost layer having it wins;
`options` always carries the defaulted keys, `config`/`overrides` only what
`configure` stored. -/
def workerOptions (st : PluginState) : Effective :=
  { cacheId := st.options.cacheId
    filename := st.options.filename
    filepath := jsSpread st.options.filepath st.overrides.filepath
    importScripts := jsSpread st.options.importScripts st.overrides.importScripts
    staticFileGlobs :=
      jsSpread (jsSpread st.config.staticFileGlobs st.options.staticFileGlobs)
        st.overrides.staticFileGlobs
    stripPrefixMulti :=
      jsSpread (jsSpread st.config.stripPrefixMulti st.options.stripPrefixMulti)
        st.overrides.stripPrefixMulti
    mergeStaticsConfig := st.options.mergeStaticsConfig
    minify := st.options.minify
    debug := st.options.debug }

/-- Line 96: `const \x7bfilepath = path.resolve(outputPath,
this.options.filename)\x7d = this.options` — the destructuring default fires
only when the key is absent. -/
def resolvedFilepath (opts : Options) (outputPath : String) : String :=
  opts.filepath.getD (pathResolve outputPath opts.filename)

/-- Lines 102-109: asset names joined with the output path, concatenated with
`this.options.staticFileGlobs || []`, filtered by the ignore patterns. -/
def computedStaticFileGlobs (opts : Options) (outputPath : String)
    (assets : List String) : List String :=
  ((assets.map (fun f => pathJoin outputPath f)) ++ opts.staticFileGlobs.getD []).filter
    (fun text => !(opts.staticFileGlobsIgnorePatterns.any (fun regex => regex text)))

/-- Lines 111-118: spread of the user `stripPrefixMulti`, then — when
`outputPath` is truthy — assignment of the `outputPath + path.sep` key to the
public path. -/
def computedStripPrefixMulti (opts : Options) (outputPath publicPath : String) :
    List (String × String) :=
  let m := opts.stripPrefixMulti.getD []
  if outputPath == "" then m else oset m (outputPath ++ pathSep) publicPath

/-- The `configure(compiler, compilation)` method, lines 83-144. -/
def configure (st : PluginState) (compiler : CompilerState)
    (compilation : Compilation) : PluginState :=
  let outputPath := compiler.outputPath
  let filepath := resolvedFilepath st.options outputPath
  let publicPath := compiler.publicPath.getD ""
  let staticFileGlobs := computedStaticFileGlobs st.options outputPath compilation.assets
  let stripPrefixMulti := computedStripPrefixMulti st.options outputPath publicPath
  let config : Config :=
    { staticFileGlobs := some staticFileGlobs, stripPrefixMulti := some stripPrefixMulti }
  let overrides1 : Overrides := { st.overrides with filepath := some filepath }
  let overrides2 : Overrides :=
    match st.options.importScripts with
    | some scripts =>
        let resolved := scripts.map (fun f =>
          urlResolve publicPath (replaceAll f "[hash]" compilation.hash))
        { overrides1 with importScripts := some resolved }
    | none => overrides1
  let overrides3 : Overrides :=
    if st.options.mergeStaticsConfig then
      { overrides2 with staticFileGlobs := some staticFileGlobs,
                        stripPrefixMulti := some stripPrefixMulti }
    else overrides2
  { st with config := config, overrides := overrides3 }

/-- Source line 6. -/
def FILEPATH_WARNING : String :=
  "sw-prechache-webpack-plugin [filepath]: You are using a custom path for your service worker, this may prevent the service worker from working correctly if it is not available in the same path as your application."

/-- Source line 7. -/
def FORCEDELETE_WARNING : String :=
  "sw-prechache-webpack-plugin [forceDelete]: You are specifying the option forceDelete. This was removed in v0.10. It should not affect your build but should no longer be required."

/-- JS truthiness of a possibly-absent string value (absent, `""` falsy). -/
def truthyStr : Option String → Bool
  | none => false
  | some s => !(s == "")

/-- `createServiceWorker()`, lines 146-157: run the external generator on
`this.workerOptions`; when `minify` is set, feed the result to UglifyJS keyed
by `this.options.filename`.  The external generator and minifier are
parameters: `Except.error` models a rejected promise / thrown exception. -/
def createServiceWorker (st : PluginState)
    (generate : Effective → Except String String)
    (minifier : String → String → Except String String) : Except String String :=
  match generate (workerOptions st) with
  | Except.error e => Except.error e
  | Except.ok contents =>
      if st.options.minify then minifier st.options.filename contents
      else Except.ok contents

/-- `checkWarnings(compilation)`, lines 172-186: push advisory warnings onto
`this.warnings`, then — when the effective `debug` flag is truthy — forward
every accumulated warning to `compilation.warnings`.  Returns the updated
`this.warnings` and the updated `compilation.warnings`. -/
def checkWarnings (st : PluginState) (compilationWarnings : List String) :
    List String × List String :=
  let w1 := if truthyStr st.options.filepath then st.warnings ++ [FILEPATH_WARNING]
            else st.warnings
  let w2 := if st.options.forceDelete then w1 ++ [FORCEDELETE_WARNING] else w1
  let diags := if (workerOptions st).debug then compilationWarnings ++ w2
               else compilationWarnings
  (w2, diags)

/-- Observable events of one `after-emit` hook invocation, in order. -/
inductive Ev
  | configureEv : Ev
  | checkWarningsEv : Ev
  | mkdirpCallEv (dir : String) : Ev
  | callbackEv (err : Option String) : Ev
  | mkdirpDoneEv (err : Option String) : Ev
  | writeFileCallEv (file content : String) : Ev
  | writeFileDoneEv (err : Option String) : Ev
  deriving DecidableEq, Repr

/-- Event trace of the `after-emit` hook body (lines 69-80), following JS
evaluation and promise semantics with an asynchronous output filesystem
(filesystem completion callbacks run after the already-queued promise
continuations):

* `this.configure(...)` runs first;
* building the chain evaluates `this.checkWarnings(compilation)` immediately,
  because it is passed to `.then` as an already-computed argument value, not
  as a function — so the warnings check runs before the generator settles;
* when `createServiceWorker` rejects, the chain skips to `error`, which calls
  the host callback with the error, and no filesystem call is made;
* when it fulfills, `writeServiceWorker` calls `mkdirp` (line 163) and
  returns its non-promise (`undefined`) return value, so the chain continues
  without waiting: `done()` invokes the host callback with success while the
  filesystem work is still pending; the `mkdirp` completion callback
  `() => ...` discards its error argument and calls `writeFile`, whose
  completion callback is the host `callback` itself, invoked a second time
  with the write's error (or success). -/
def afterEmit (opts : Options) (compiler : CompilerState)
    (compilation : Compilation)
    (generate : Effective → Except String String)
    (minifier : String → String → Except String String)
    (mkdirpErr writeErr : Option String) : List Ev :=
  let st := configure (init opts) compiler compilation
  [Ev.configureEv, Ev.checkWarningsEv] ++
    match createServiceWorker st generate minifier with
    | Except.error e => [Ev.callbackEv (some e)]
    | Except.ok serviceWorker =>
        let filepath := (workerOptions st).filepath.getD ""
        [Ev.mkdirpCallEv (parentDir filepath), Ev.callbackEv none,
         Ev.mkdirpDoneEv mkdirpErr,
         Ev.writeFileCallEv filepath serviceWorker,
         Ev.writeFileDoneEv writeErr, Ev.callbackEv writeErr]

/-! ### Helper lemmas about the JS object model -/

/-- After the in-place update of an existing key, lookup finds the new value. -/
theorem find?_map_update (k v : String) (m : List (String × String))
    (h : m.any (fun p => p.1 == k) = true) :
    (m.map (fun p => if p.1 == k then (k, v) else p)).find? (fun p => p.1 == k) =
      some (k, v) := by
  induction m with
  | nil => simp at h
  | cons a t ih =>
      by_cases ha : (a.1 == k) = true
      · simp only [List.map_cons, if_pos ha]
        exact List.find?_cons_of_pos _ (by simp)
      · have ha' : (a.1 == k) = false := by simpa using ha
        have h' : t.any (fun p => p.1 == k) = true := by simpa [ha'] using h
        simp only [List.map_cons]
        rw [if_neg ha]
        rw [List.find?_cons_of_neg _ (by simp [ha'])]
        exact ih h'

/-- After appending a fresh key, lookup finds the appended value. -/
theorem find?_append_fresh (k v : String) (m : List (String × String))
    (h : m.any (fun p => p.1 == k) = false) :
    (m ++ [(k, v)]).find? (fun p => p.1 == k) = some (k, v) := by
  induction m with
  | nil => exact List.find?_cons_of_pos _ (by simp)
  | cons a t ih =>
      simp only [List.any_cons, Bool.or_eq_false_iff] at h
      rw [List.cons_append, List.find?_cons_of_neg _ (by simp [h.1])]
      exact ih h.2

/-- JS property assignment followed by lookup of the same key returns the
assigned value, whether or not the key was already present. -/
theorem olookup_oset_self (m : List (String × String)) (k v : String) :
    olookup (oset m k v) k = some v := by
  unfold olookup oset
  by_cases h : m.any (fun p => p.1 == k) = true
  · rw [if_pos h, find?_map_update k v m h]
    rfl
  · have h' : m.any (fun p => p.1 == k) = false := by
      simp only [Bool.not_eq_true] at h
      exact h
    rw [if_neg h, find?_append_fresh k v m h']
    rfl

/-! ### Concrete build fixtures used by witnesses and counterexamples -/

/-- A webpack host with output directory `/dist` and public path `/assets/`. -/
def csDist : CompilerState := ⟨"/dist", some "/assets/"⟩

/-- A compilation that emitted `a.js` and `b.css` with hash `h1`. -/
def compAB : Compilation := ⟨["a.js", "b.css"], "h1"⟩

/-- A generator that fulfills with fixed source text. -/
def genOk : Effective → Except String String := fun _ => Except.ok "sw-src"

/-- A minifier model that returns its input unchanged. -/
def minId : String → String → Except String String := fun _ s => Except.ok s

/-! ### Claims -/

/-- C1: the claim says the host completion callback fires only after the
service-worker write has truly finished and that the warnings check runs only
after writing.  The code violates this: in a successful default build the
trace shows `checkWarningsEv` (position 1) before the filesystem calls — it is
evaluated while the promise chain is built — and `callbackEv none` (position
3, from `done()`) before `writeFileDoneEv` (position 6); the callback then
fires a second time from the write completion. -/
theorem c1_callback_fires_before_write_completes :
    afterEmit {} csDist compAB genOk minId none none =
      [Ev.configureEv, Ev.checkWarningsEv, Ev.mkdirpCallEv "/dist",
       Ev.callbackEv none, Ev.mkdirpDoneEv none,
       Ev.writeFileCallEv "/dist/service-worker.js" "sw-src",
       Ev.writeFileDoneEv none, Ev.callbackEv none] := by decide

/-- C2: in the effective configuration `workerOptions`, every key present in
the Overrides layer (filepath, importScripts, staticFileGlobs,
stripPrefixMulti) takes final precedence over the Config and Options layers,
for any plugin state and hence for every build. -/
theorem c2_overrides_take_final_precedence (st : PluginState) :
    (∀ v, st.overrides.filepath = some v → (workerOptions st).filepath = some v) ∧
    (∀ l, st.overrides.importScripts = some l →
      (workerOptions st).importScripts = some l) ∧
    (∀ l, st.overrides.staticFileGlobs = some l →
      (workerOptions st).staticFileGlobs = some l) ∧
    (∀ m, st.overrides.stripPrefixMulti = some m →
      (workerOptions st).stripPrefixMulti = some m) := by
  refine ⟨?_, ?_, ?_, ?_⟩ <;> intro x hx <;> simp [workerOptions, jsSpread, hx]

/-- Witness for C2 at a state whose overrides carry all four keys. -/
theorem c2_overrides_take_final_precedence_witness :
    (workerOptions ⟨{}, { filepath := some "/user/sw.js" },
        { filepath := some "/ovr/sw.js", importScripts := some ["/ovr/i.js"],
          staticFileGlobs := some ["/ovr/a.js"],
          stripPrefixMulti := some [("/ovr/", "/p/")] }, []⟩).filepath =
      some "/ovr/sw.js" ∧
    (workerOptions ⟨{}, { filepath := some "/user/sw.js" },
        { filepath := some "/ovr/sw.js", importScripts := some ["/ovr/i.js"],
          staticFileGlobs := some ["/ovr/a.js"],
          stripPrefixMulti := some [("/ovr/", "/p/")] }, []⟩).importScripts =
      some ["/ovr/i.js"] := by
  have h := c2_overrides_take_final_precedence
    ⟨{}, { filepath := some "/user/sw.js" },
      { filepath := some "/ovr/sw.js", importScripts := some ["/ovr/i.js"],
        staticFileGlobs := some ["/ovr/a.js"],
        stripPrefixMulti := some [("/ovr/", "/p/")] }, []⟩
  exact ⟨h.1 _ rfl, h.2.1 _ rfl⟩

/-- C3 counterexample: with `mergeStaticsConfig` left false (its default) and
a user-supplied `stripPrefixMulti` carrying a conflicting entry for the exact
key `"/dist" ++ pathSep`, the user's whole map wins the `workerOptions`
spread, so the effective prefix-stripping map does not send that key to the
public path `"/assets/"` — refuting "regardless of the mergeStaticsConfig
setting". -/
theorem c3_effective_strip_entry_counterexample :
    ¬ (olookup ((workerOptions (configure
          (init { stripPrefixMulti := some [("/dist/", "other")] })
          csDist compAB)).stripPrefixMulti.getD [])
        ("/dist" ++ pathSep) = some "/assets/") := by decide

/-- C3 (amended): when the output directory is known, the computed
prefix-stripping map (stored in the Config layer, and in the Overrides layer
when `mergeStaticsConfig` is true) maps `outputPath ++ pathSep` to the public
path even when the user supplied a conflicting entry for that exact key; the
entry reaches the effective configuration whenever the user did not supply
`stripPrefixMulti` at all or `mergeStaticsConfig` is true. -/
theorem c3_strip_prefix_entry_amended (opts : Options) (compiler : CompilerState)
    (compilation : Compilation) (hout : ¬ compiler.outputPath = "") :
    olookup (computedStripPrefixMulti opts compiler.outputPath
        (compiler.publicPath.getD "")) (compiler.outputPath ++ pathSep) =
      some (compiler.publicPath.getD "") ∧
    (configure (init opts) compiler compilation).config.stripPrefixMulti =
      some (computedStripPrefixMulti opts compiler.outputPath
        (compiler.publicPath.getD "")) ∧
    ((opts.stripPrefixMulti = none ∨ opts.mergeStaticsConfig = true) →
      olookup ((workerOptions (configure (init opts) compiler
          compilation)).stripPrefixMulti.getD [])
        (compiler.outputPath ++ pathSep) = some (compiler.publicPath.getD "")) := by
  have hset : olookup (computedStripPrefixMulti opts compiler.outputPath
      (compiler.publicPath.getD "")) (compiler.outputPath ++ pathSep) =
      some (compiler.publicPath.getD "") := by
    unfold computedStripPrefixMulti
    rw [if_neg (by simpa using hout)]
    exact olookup_oset_self _ _ _
  refine ⟨hset, ?_, ?_⟩
  · cases hIS : opts.importScripts <;>
      by_cases hm : opts.mergeStaticsConfig <;>
        simp [configure, init, hIS, hm]
  · rintro (hnone | htrue)
    · cases hIS : opts.importScripts <;>
        by_cases hm : opts.mergeStaticsConfig <;>
          simp [configure, init, workerOptions, jsSpread, hIS, hm, hnone, hset]
    · cases hIS : opts.importScripts <;>
        simp [configure, init, workerOptions, jsSpread, hIS, htrue, hset]

/-- Witness for C3 (amended) at the default options and the `/dist` host. -/
theorem c3_strip_prefix_entry_amended_witness :
    olookup (computedStripPrefixMulti {} "/dist" "/assets/")
      ("/dist" ++ pathSep) = some "/assets/" ∧
    olookup ((workerOptions (configure (init {}) csDist
        compAB)).stripPrefixMulti.getD []) ("/dist" ++ pathSep) =
      some "/assets/" := by
  have h := c3_strip_prefix_entry_amended {} csDist compAB (by decide)
  exact ⟨h.1, h.2.2 (Or.inl rfl)⟩

/-- C4: the claim says any failure in generation, minification, directory
creation or writing aborts the sequence and reaches the callback as an error.
For generation and minification this holds, but a directory-creation failure
is dropped: the `mkdirp` completion callback ignores its error argument, the
file is written anyway, and the host callback never receives the error (it is
invoked with success — twice). -/
theorem c4_mkdirp_error_is_dropped :
    afterEmit {} csDist compAB genOk minId (some "EACCES") none =
      [Ev.configureEv, Ev.checkWarningsEv, Ev.mkdirpCallEv "/dist",
       Ev.callbackEv none, Ev.mkdirpDoneEv (some "EACCES"),
       Ev.writeFileCallEv "/dist/service-worker.js" "sw-src",
       Ev.writeFileDoneEv none, Ev.callbackEv none] ∧
    Ev.callbackEv (some "EACCES") ∉
      afterEmit {} csDist compAB genOk minId (some "EACCES") none := by
  exact ⟨by decide, by decide⟩

/-- `configure` never touches `this.options`. -/
theorem configure_options (st : PluginState) (c : CompilerState) (cp : Compilation) :
    (configure st c cp).options = st.options := rfl

/-- The constructor stores the merged user options unchanged. -/
theorem init_options (opts : Options) : (init opts).options = opts := rfl

/-- `configure` never touches `this.warnings`. -/
theorem configure_warnings (st : PluginState) (c : CompilerState) (cp : Compilation) :
    (configure st c cp).warnings = st.warnings := rfl

/-- The effective `debug` flag comes from the Options layer: neither `config`
nor `overrides` ever carries a `debug` key. -/
theorem workerOptions_debug (st : PluginState) :
    (workerOptions st).debug = st.options.debug := rfl

/-- User options carrying statics for the `mergeStaticsConfig` claims. -/
def optsStatics : Options :=
  { staticFileGlobs := some ["/u/a.js"], stripPrefixMulti := some [("/u/", "p")] }

/-- Same statics with `mergeStaticsConfig` enabled. -/
def optsStaticsMerge : Options :=
  { staticFileGlobs := some ["/u/a.js"], stripPrefixMulti := some [("/u/", "p")],
    mergeStaticsConfig := true }

/-- C5: when `mergeStaticsConfig` is false, user-supplied `staticFileGlobs`
and `stripPrefixMulti` fully replace the computed ones in the effective
configuration; when it is true, the computed ones take final precedence. -/
theorem c5_merge_statics_precedence (opts : Options) (compiler : CompilerState)
    (compilation : Compilation) :
    (opts.mergeStaticsConfig = false →
      (∀ g, opts.staticFileGlobs = some g →
        (workerOptions (configure (init opts) compiler
          compilation)).staticFileGlobs = some g) ∧
      (∀ m, opts.stripPrefixMulti = some m →
        (workerOptions (configure (init opts) compiler
          compilation)).stripPrefixMulti = some m)) ∧
    (opts.mergeStaticsConfig = true →
      (workerOptions (configure (init opts) compiler compilation)).staticFileGlobs =
        some (computedStaticFileGlobs opts compiler.outputPath compilation.assets) ∧
      (workerOptions (configure (init opts) compiler compilation)).stripPrefixMulti =
        some (computedStripPrefixMulti opts compiler.outputPath
          (compiler.publicPath.getD ""))) := by
  constructor
  · intro hm
    constructor <;> intro x hx <;>
      cases hIS : opts.importScripts <;>
        simp [configure, init, workerOptions, jsSpread, hm, hIS, hx]
  · intro hm
    cases hIS : opts.importScripts <;>
      simp [configure, init, workerOptions, jsSpread, hm, hIS]

/-- Witness for C5: both branches at the `/dist` host. -/
theorem c5_merge_statics_precedence_witness :
    (workerOptions (configure (init optsStatics) csDist compAB)).staticFileGlobs =
      some ["/u/a.js"] ∧
    (workerOptions (configure (init optsStatics) csDist compAB)).stripPrefixMulti =
      some [("/u/", "p")] ∧
    (workerOptions (configure (init optsStaticsMerge) csDist
        compAB)).staticFileGlobs =
      some ["/dist/a.js", "/dist/b.css", "/u/a.js"] ∧
    (workerOptions (configure (init optsStaticsMerge) csDist
        compAB)).stripPrefixMulti =
      some [("/u/", "p"), ("/dist/", "/assets/")] := by
  have ha := c5_merge_statics_precedence optsStatics csDist compAB
  have hb := c5_merge_statics_precedence optsStaticsMerge csDist compAB
  exact ⟨(ha.1 rfl).1 _ rfl, (ha.1 rfl).2 _ rfl,
    ((hb.2 rfl).1).trans (by decide), ((hb.2 rfl).2).trans (by decide)⟩

/-- The file-glob list phrased from the spec's words: the output-directory-
joined form of each asset name, plus any user-supplied extra globs, minus
every entry matching at least one ignore pattern, in order. -/
def specFileGlobs (outputDir : String) (assets extraGlobs : List String)
    (ignore : List Pattern) : List String :=
  ((assets.map (fun f => pathJoin outputDir f)) ++ extraGlobs).filter
    (fun entry => !(ignore.any (fun r => r entry)))

/-- C6: for any emitted asset names, the computed file-glob list stored in
the Config layer equals exactly the spec-side list. -/
theorem c6_computed_file_globs (opts : Options) (compiler : CompilerState)
    (compilation : Compilation) :
    (configure (init opts) compiler compilation).config.staticFileGlobs =
      some (specFileGlobs compiler.outputPath compilation.assets
        (opts.staticFileGlobs.getD []) opts.staticFileGlobsIgnorePatterns) := by
  simp [configure, init, computedStaticFileGlobs, specFileGlobs]

/-- C7: the resolved output path used for the write equals the user's
`filepath` option when given, else the output directory joined with the
`filename` option, whose default is `service-worker.js`. -/
theorem c7_resolved_output_path (opts : Options) (compiler : CompilerState)
    (compilation : Compilation) :
    (workerOptions (configure (init opts) compiler compilation)).filepath =
      some (opts.filepath.getD (pathResolve compiler.outputPath opts.filename)) ∧
    DEFAULT_OPTIONS.filename = "service-worker.js" := by
  constructor
  · cases hIS : opts.importScripts <;>
      by_cases hm : opts.mergeStaticsConfig <;>
        simp [configure, init, workerOptions, jsSpread, resolvedFilepath, hIS, hm]
  · rfl

/-- C8: when `minify` is true the written content is the minifier's output
for the generated source (keyed by the `filename` option) and a minifier
failure aborts the build with that error; when `minify` is false the written
content is the generator's output verbatim. -/
theorem c8_minified_content_written (opts : Options) (compiler : CompilerState)
    (compilation : Compilation) (generate : Effective → Except String String)
    (minifier : String → String → Except String String)
    (mkdirpErr writeErr : Option String) (s : String)
    (hg : generate (workerOptions (configure (init opts) compiler compilation)) =
      Except.ok s) :
    (opts.minify = true →
      (∀ m, minifier opts.filename s = Except.ok m →
        Ev.writeFileCallEv ((workerOptions (configure (init opts) compiler
            compilation)).filepath.getD "") m ∈
          afterEmit opts compiler compilation generate minifier mkdirpErr writeErr) ∧
      (∀ e, minifier opts.filename s = Except.error e →
        afterEmit opts compiler compilation generate minifier mkdirpErr writeErr =
          [Ev.configureEv, Ev.checkWarningsEv, Ev.callbackEv (some e)])) ∧
    (opts.minify = false →
      Ev.writeFileCallEv ((workerOptions (configure (init opts) compiler
          compilation)).filepath.getD "") s ∈
        afterEmit opts compiler compilation generate minifier mkdirpErr writeErr) := by
  constructor
  · intro hmin
    constructor
    · intro m hm
      simp [afterEmit, createServiceWorker, configure_options, init_options,
        hg, hmin, hm]
    · intro e he
      simp [afterEmit, createServiceWorker, configure_options, init_options,
        hg, hmin, he]
  · intro hmin
    simp [afterEmit, createServiceWorker, configure_options, init_options, hg, hmin]

/-- Witness for C8: a minifying build whose minifier returns `"MIN"`. -/
theorem c8_minified_content_written_witness :
    Ev.writeFileCallEv "/dist/service-worker.js" "MIN" ∈
      afterEmit { minify := true } csDist compAB genOk
        (fun _ _ => Except.ok "MIN") none none := by
  have h := c8_minified_content_written { minify := true } csDist compAB genOk
    (fun _ _ => Except.ok "MIN") none none "sw-src" rfl
  have h2 := (h.1 rfl).1 "MIN" rfl
  simpa using h2

/-- C9: every configured import-script entry has each occurrence of the
`[hash]` placeholder replaced with the build hash and is then resolved
against the public path; the list is stored in the Overrides layer. -/
theorem c9_import_scripts_resolved (opts : Options) (compiler : CompilerState)
    (compilation : Compilation) (scripts : List String)
    (h : opts.importScripts = some scripts) :
    (configure (init opts) compiler compilation).overrides.importScripts =
      some (scripts.map (fun f => urlResolve (compiler.publicPath.getD "")
        (replaceAll f "[hash]" compilation.hash))) := by
  by_cases hm : opts.mergeStaticsConfig <;> simp [configure, init, h, hm]

/-- Witness for C9 at hash `h1` and public path `/assets/`. -/
theorem c9_import_scripts_resolved_witness :
    (configure (init { importScripts := some ["sw-[hash].js", "x.js"] }) csDist
        compAB).overrides.importScripts =
      some ["/assets/sw-h1.js", "/assets/x.js"] := by
  have h := c9_import_scripts_resolved { importScripts := some ["sw-[hash].js", "x.js"] }
    csDist compAB ["sw-[hash].js", "x.js"] rfl
  exact h.trans (by decide)

/-- C10: with the effective `debug` flag false no warnings reach the host
diagnostics even when `filepath`/`forceDelete` are used; with it true, the
host diagnostics for a build from a fresh instance gain exactly one warning
per triggered condition. -/
theorem c10_debug_gates_warnings (opts : Options) (compiler : CompilerState)
    (compilation : Compilation) (diags : List String) :
    ((workerOptions (configure (init opts) compiler compilation)).debug = false →
      (checkWarnings (configure (init opts) compiler compilation) diags).2 = diags) ∧
    ((workerOptions (configure (init opts) compiler compilation)).debug = true →
      (checkWarnings (configure (init opts) compiler compilation) diags).2 =
        diags ++ ((if truthyStr opts.filepath then [FILEPATH_WARNING] else []) ++
          (if opts.forceDelete then [FORCEDELETE_WARNING] else []))) := by
  have hdeq : (workerOptions (configure (init opts) compiler compilation)).debug =
      opts.debug := rfl
  constructor <;> intro hd <;> rw [hdeq] at hd <;>
    by_cases hf : truthyStr opts.filepath <;>
      by_cases hfd : opts.forceDelete <;>
        simp [checkWarnings, workerOptions_debug, configure_options,
          configure_warnings, init_options, init, hd, hf, hfd]

/-- Legacy options with the debug flag enabled. -/
def optsLegacyDebug : Options :=
  { filepath := some "/custom/sw.js", forceDelete := true, debug := true }

/-- Legacy options with the debug flag left at its default (false). -/
def optsLegacyQuiet : Options :=
  { filepath := some "/custom/sw.js", forceDelete := true }

/-- Witness for C10: both debug settings with both legacy options supplied. -/
theorem c10_debug_gates_warnings_witness :
    (checkWarnings (configure (init optsLegacyDebug) csDist compAB) ["w0"]).2 =
      ["w0", FILEPATH_WARNING, FORCEDELETE_WARNING] ∧
    (checkWarnings (configure (init optsLegacyQuiet) csDist compAB) ["w0"]).2 =
      ["w0"] := by
  have ht := (c10_debug_gates_warnings optsLegacyDebug csDist compAB ["w0"]).2 rfl
  have hf := (c10_debug_gates_warnings optsLegacyQuiet csDist compAB ["w0"]).1 rfl
  exact ⟨by simpa [optsLegacyDebug, truthyStr] using ht, hf⟩

end SWPlugin
